import Mathlib

/-!
Verification of the Minecraft screensaver (`src/Minecrft_Screensaver.py`).

The per-frame update loop is embedded shallowly: floating-point quantities
become exact rationals, the pseudo-random draws become explicit oracle
parameters (with the range constraints the library guarantees stated as
hypotheses), and the mutable loop state becomes explicit state passing.
-/

namespace Screensaver

/-! ## Configuration constants (lines 21-29 of the source) -/

def FPS : ℕ := 60

/-- `BLOCK_FALL_RATE = (150, 400)` : fall-speed range in px/s. -/
def BLOCK_FALL_RATE : ℚ × ℚ := (150, 400)

/-- `BLOCK_SPAWN_RATE = 0.08` : mean seconds between spawns. -/
def BLOCK_SPAWN_RATE : ℚ := 8/100

def CLOUD_SPEED : ℚ := 10

def CLOUD_COUNT : ℕ := 5

/-! ## Falling particles (dataclass `FallingBlock`, lines 41-49) -/

structure FallingBlock where
  x : ℚ
  y : ℚ
  size : ℤ
  vy : ℚ
  color : ℕ × ℕ × ℕ
  life : ℚ
  max_life : ℚ
  deriving Repr, DecidableEq

/-- Per-frame advance of one particle (lines 164-166):
`b.y += b.vy * dt; b.life -= dt`. -/
def advanceParticle (dt : ℚ) (b : FallingBlock) : FallingBlock :=
  { b with y := b.y + b.vy * dt, life := b.life - dt }

/-- The retention test of line 167: `b.life > 0 and b.y < screen_h + 200`. -/
def particleAlive (screen_h : ℚ) (b : FallingBlock) : Bool :=
  decide (0 < b.life) && decide (b.y < screen_h + 200)

/-- One frame of the particle aging/removal step (lines 164-167):
advance every particle, then filter by `particleAlive`. -/
def particlesStep (dt screen_h : ℚ) (ps : List FallingBlock) : List FallingBlock :=
  (ps.map (advanceParticle dt)).filter (particleAlive screen_h)

/-- Particle construction at spawn time (lines 155-162).  The random draws
are oracle parameters: `x`, `y`, `vy` and the colour as drawn, `r` the
`random.random()` sample used for the lifetime `2.5 + r * 2.0`; the particle
is created with `life = max_life` (the constructor call passes `life, life`). -/
def spawnParticle (x y vy : ℚ) (size : ℤ) (color : ℕ × ℕ × ℕ) (r : ℚ) :
    FallingBlock :=
  { x := x, y := y, size := size, vy := vy, color := color,
    life := 5/2 + r * 2, max_life := 5/2 + r * 2 }

/-! ## Spawn timing (lines 120-121 and 152-162) -/

structure SpawnState where
  spawn_accum : ℚ
  spawn_interval : ℚ
  deriving Repr, DecidableEq

/-- One frame of the spawn decision (line 140 adds `dt` to the accumulator;
lines 152-162 spawn at most one particle and re-randomize the interval as
`max(0.02, random.gauss(BLOCK_SPAWN_RATE, BLOCK_SPAWN_RATE*0.4))`, the
Gaussian sample being the oracle parameter `g`).  Returns the new timing
state and the list of particles spawned this frame. -/
def spawnStep (dt g : ℚ) (p : FallingBlock) (st : SpawnState) :
    SpawnState × List FallingBlock :=
  let acc := st.spawn_accum + dt
  if st.spawn_interval ≤ acc then
    ({ spawn_accum := acc - st.spawn_interval,
       spawn_interval := max (2/100) g }, [p])
  else
    ({ st with spawn_accum := acc }, [])

/-! ## Clouds (lines 123-131 creation, lines 169-174 update)

A cloud in the source is the list `[x, y, surf, speed]`; the surface only
contributes its pixel width to the update logic, so we keep the width. -/

structure Cloud where
  x : ℚ
  y : ℚ
  width : ℕ
  speed : ℚ
  deriving Repr, DecidableEq

/-- One frame's update of one cloud (lines 169-174):
`cloud[0] += cloud[3] * dt`; if the advanced x exceeds
`screen_w + width` the cloud is re-seeded at
`x = -width - uniform(0, screen_w*0.2)`, with a fresh `y` from
`uniform(20, screen_h*0.35)` and a fresh speed from
`uniform(CLOUD_SPEED*0.5, CLOUD_SPEED*1.5)`; the three uniform samples are
the oracle parameters `rOff`, `rY`, `rSpeed`. -/
def updateCloud (dt screen_w : ℚ) (rOff rY rSpeed : ℚ) (c : Cloud) : Cloud :=
  let x2 := c.x + c.speed * dt
  if screen_w + c.width < x2 then
    { c with x := -(c.width : ℚ) - rOff, y := rY, speed := rSpeed }
  else
    { c with x := x2 }

/-- One frame of the cloud system: every cloud is updated in place, with
`rnd i` the random draws consumed for the cloud at index `i`. -/
def cloudsStep (dt screen_w : ℚ) (rnd : ℕ → ℚ × ℚ × ℚ)
    (cs : List Cloud) : List Cloud :=
  cs.mapIdx (fun i c => updateCloud dt screen_w (rnd i).1 (rnd i).2.1 (rnd i).2.2 c)

/-- Any number of frames of the cloud system, one random oracle per frame. -/
def cloudsRun (dt screen_w : ℚ) (rnds : List (ℕ → ℚ × ℚ × ℚ))
    (cs : List Cloud) : List Cloud :=
  rnds.foldl (fun acc r => cloudsStep dt screen_w r acc) cs

/-! ## Renderer: particle alpha (lines 185-186)

`alpha = max(0, min(255, int(255 * (b.life / b.max_life))))`.
Python `int()` truncates toward zero. -/

/-- Python `int()` on a rational: truncation toward zero. -/
def pyInt (q : ℚ) : ℤ := if 0 ≤ q then ⌊q⌋ else ⌈q⌉

/-- The alpha computed by the renderer for a particle (line 186). -/
def alphaOf (life max_life : ℚ) : ℤ :=
  max 0 (min 255 (pyInt (255 * (life / max_life))))

/-- Modelled from the spec's words (for comparison only): alpha as
`round(255 × f)` clamped to `[0, 255]`. -/
def specAlpha (f : ℚ) : ℤ := max 0 (min 255 (round ((255 : ℚ) * f)))

/-! ## Input events and the exit state machine (lines 136-150)

`running` is the loop flag: `true` is the spec's RUNNING state, `false`
is EXITING.  The event poll of lines 142-150 folds over the polled
events; each handler may only clear the flag. -/

inductive Event where
  | quit
  | keyDown
  | mouseButtonDown
  | mouseMotion (pos : ℤ × ℤ)
  | other
  deriving Repr, DecidableEq

/-- Handling of a single polled event (lines 143-150). `start` is
`start_mouse_pos`, recorded at startup (line 133). -/
def handleEvent (start : ℤ × ℤ) (running : Bool) (e : Event) : Bool :=
  match e with
  | .quit => false
  | .keyDown => false
  | .mouseButtonDown => false
  | .mouseMotion p => if p ≠ start then false else running
  | .other => running

/-- The per-frame event poll: lines 142-150 handle every polled event. -/
def processEvents (start : ℤ × ℤ) (running : Bool) (evs : List Event) : Bool :=
  evs.foldl (handleEvent start) running

/-- The `while running` loop (line 138), abstracted to the exit flag: each
frame polls a batch of events; the loop body runs only while the flag is
still set, and stops as soon as it is cleared. -/
def mainLoop (start : ℤ × ℤ) (frames : List (List Event)) (running : Bool) :
    Bool :=
  match frames with
  | [] => running
  | evs :: rest =>
      if running then mainLoop start rest (processEvents start running evs)
      else running

/-! ## Cursor/grab cleanup (lines 96-103 setup, 210-218 teardown) -/

structure SysState where
  cursorVisible : Bool
  inputGrabbed : Bool
  deriving Repr, DecidableEq

/-- The loop either finishes normally (flag cleared) or raises. -/
inductive LoopOutcome where
  | normal
  | fault
  deriving Repr, DecidableEq

/-- The `finally` block of lines 210-216: `pygame.mouse.set_visible(True);
pygame.event.set_grab(False)`. -/
def restoreCursor (s : SysState) : SysState :=
  { s with cursorVisible := true, inputGrabbed := false }

/-- `try: loop ... finally: restore` (lines 137 and 210-216): whatever the
body does to the system state, and whether it returns normally or raises,
the `finally` block runs on the resulting state before termination. -/
def runWithCleanup (body : SysState → LoopOutcome × SysState) (s : SysState) :
    LoopOutcome × SysState :=
  let r := body s
  (r.1, restoreCursor r.2)

/-- `main` as seen by the cursor state: hide and grab at startup
(lines 98-100), then the guarded loop with guaranteed cleanup. -/
def mainCursorStates (body : SysState → LoopOutcome × SysState)
    (s : SysState) : LoopOutcome × SysState :=
  runWithCleanup body { s with cursorVisible := false, inputGrabbed := true }

/-! ## Block bob (lines 28-29 and 178)

`bob = math.sin(2 * math.pi * BOB_SPEED * t) * BOB_AMPLITUDE`, taken as
exact real arithmetic. -/

noncomputable def BOB_AMPLITUDE : ℝ := 8

noncomputable def BOB_SPEED : ℝ := 8/10

noncomputable def bob (t : ℝ) : ℝ :=
  Real.sin (2 * Real.pi * BOB_SPEED * t) * BOB_AMPLITUDE

/-- The cloud list built at startup (lines 123-131): one cloud per index in
`range(CLOUD_COUNT)`, with `mk i` the cloud produced by the random draws for
index `i`. -/
def initClouds (mk : ℕ → Cloud) : List Cloud :=
  (List.range CLOUD_COUNT).map mk

/-! ## Helper lemmas -/

lemma cloudsStep_length (dt screen_w : ℚ) (rnd : ℕ → ℚ × ℚ × ℚ)
    (cs : List Cloud) : (cloudsStep dt screen_w rnd cs).length = cs.length := by
  simp [cloudsStep]

lemma cloudsRun_length (dt screen_w : ℚ) (rnds : List (ℕ → ℚ × ℚ × ℚ))
    (cs : List Cloud) : (cloudsRun dt screen_w rnds cs).length = cs.length := by
  induction rnds generalizing cs with
  | nil => rfl
  | cons r rest ih =>
      simpa [cloudsRun] using (ih (cloudsStep dt screen_w r cs)).trans
        (cloudsStep_length dt screen_w r cs)

lemma handleEvent_clear (start : ℤ × ℤ) (e : Event) :
    handleEvent start false e = false := by
  cases e <;> simp [handleEvent]

lemma processEvents_false (start : ℤ × ℤ) (evs : List Event) :
    processEvents start false evs = false := by
  induction evs with
  | nil => rfl
  | cons e rest ih =>
      simpa [processEvents, handleEvent_clear] using ih

end Screensaver

namespace Screensaver

/-! ## The claims -/

/-- C1: every particle update subtracts exactly `dt` from the remaining
lifetime, and after the update a particle is in the active list exactly when
its lifetime is positive and its `y` is below `screen_h + 200`. -/
theorem particle_update_lifetime_and_retention (dt screen_h : ℚ)
    (ps : List FallingBlock) :
    (∀ b ∈ ps, (advanceParticle dt b).life = b.life - dt) ∧
    (∀ b, b ∈ particlesStep dt screen_h ps ↔
      (∃ a ∈ ps, b = advanceParticle dt a) ∧ 0 < b.life ∧ b.y < screen_h + 200) := by
  refine ⟨fun b _ => rfl, fun b => ?_⟩
  simp only [particlesStep, List.mem_filter, List.mem_map, particleAlive,
    Bool.and_eq_true, decide_eq_true_eq]
  constructor
  · rintro ⟨⟨a, ha, rfl⟩, h1, h2⟩
    exact ⟨⟨a, ha, rfl⟩, h1, h2⟩
  · rintro ⟨⟨a, ha, rfl⟩, h1, h2⟩
    exact ⟨⟨a, ha, rfl⟩, h1, h2⟩

/-- Witness for C1 at a concrete particle. -/
theorem particle_update_lifetime_and_retention_witness :
    (advanceParticle 1 (FallingBlock.mk 0 0 1 2 (0, 0, 0) 3 3)).life
      = (FallingBlock.mk 0 0 1 2 (0, 0, 0) 3 3).life - 1 :=
  (particle_update_lifetime_and_retention 1 100
      [FallingBlock.mk 0 0 1 2 (0, 0, 0) 3 3]).1
    (FallingBlock.mk 0 0 1 2 (0, 0, 0) 3 3) (by simp)

/-- C2: a cloud's `x` is reset (to a value `< 0`) exactly when the advanced
position exceeds `screen_w + width`, and the cloud count stays `CLOUD_COUNT`
across any number of updates.  The hypotheses record what the source's random
draws guarantee: the sprite width is a positive pixel count and the re-entry
offset `uniform(0, screen_w*0.2)` is nonnegative. -/
theorem cloud_wrap_and_count (dt screen_w rOff rY rSpeed : ℚ) (c : Cloud)
    (hw : 0 < c.width) (hr : 0 ≤ rOff) :
    (screen_w + c.width < c.x + c.speed * dt →
       (updateCloud dt screen_w rOff rY rSpeed c).x = -(c.width : ℚ) - rOff ∧
       (updateCloud dt screen_w rOff rY rSpeed c).x < 0) ∧
    (¬ screen_w + c.width < c.x + c.speed * dt →
       (updateCloud dt screen_w rOff rY rSpeed c).x = c.x + c.speed * dt) ∧
    (∀ mk rnds, (initClouds mk).length = CLOUD_COUNT ∧
       (cloudsRun dt screen_w rnds (initClouds mk)).length = CLOUD_COUNT) := by
  have hwq : (0 : ℚ) < (c.width : ℚ) := by exact_mod_cast hw
  refine ⟨fun h => ?_, fun h => ?_, fun mk rnds => ?_⟩
  · rw [updateCloud, if_pos h]
    refine ⟨rfl, ?_⟩
    show -(c.width : ℚ) - rOff < 0
    linarith
  · rw [updateCloud, if_neg h]
  · refine ⟨by simp [initClouds], ?_⟩
    rw [cloudsRun_length]
    simp [initClouds]

/-- Witness for C2: a cloud past the right edge wraps to a negative `x`. -/
theorem cloud_wrap_and_count_witness :
    (50 : ℚ) + (Cloud.mk 100 0 10 5).width
        < (Cloud.mk 100 0 10 5).x + (Cloud.mk 100 0 10 5).speed * 1 ∧
    (updateCloud 1 50 0 7 9 (Cloud.mk 100 0 10 5)).x = -(10 : ℚ) - 0 ∧
    (updateCloud 1 50 0 7 9 (Cloud.mk 100 0 10 5)).x < 0 := by
  refine ⟨by norm_num, ?_⟩
  exact (cloud_wrap_and_count 1 50 0 7 9 (Cloud.mk 100 0 10 5)
      (by norm_num) (by norm_num)).1 (by norm_num)

/-- C3 counterexample: at `life = 1`, `max_life = 2` (fraction `1/2`) the
renderer computes `int(255 * 0.5) = 127`, while `round(255 * 0.5) = 128`
(clamped), so the rendered alpha is not `round(255 f)` clamped to
`[0, 255]`. -/
theorem alpha_round_counterexample :
    alphaOf 1 2 = 127 ∧ specAlpha (1 / 2) = 128 ∧
    alphaOf 1 2 ≠ specAlpha (1 / 2) := by
  refine ⟨?_, ?_, ?_⟩ <;> norm_num [alphaOf, specAlpha, pyInt, round_eq]

/-- C3 amended: for an active particle (nonnegative remaining life, positive
total life) the alpha equals `⌊255 f⌋` — truncation, not rounding — clamped
to `[0, 255]`. -/
theorem alpha_floor_clamped (life max_life : ℚ) (h0 : 0 ≤ life)
    (h1 : 0 < max_life) :
    alphaOf life max_life = max 0 (min 255 ⌊(255 : ℚ) * (life / max_life)⌋) := by
  unfold alphaOf pyInt
  rw [if_pos]
  positivity

/-- Witness for the amended C3. -/
theorem alpha_floor_clamped_witness :
    alphaOf 1 2 = max 0 (min 255 ⌊(255 : ℚ) * (1 / 2)⌋) :=
  alpha_floor_clamped 1 2 (by norm_num) (by norm_num)

/-- C4: a mouse-motion event at the recorded start position does not clear
the running flag; one at any other position does. -/
theorem mouse_motion_exit_iff (start p : ℤ × ℤ) :
    (p = start → handleEvent start true (Event.mouseMotion p) = true) ∧
    (p ≠ start → handleEvent start true (Event.mouseMotion p) = false) := by
  constructor <;> intro h <;> simp [handleEvent, h]

/-- Witness for C4: motion at the start position keeps running, motion one
pixel away exits. -/
theorem mouse_motion_exit_iff_witness :
    handleEvent (0, 0) true (Event.mouseMotion (0, 0)) = true ∧
    handleEvent (0, 0) true (Event.mouseMotion (1, 0)) = false :=
  ⟨(mouse_motion_exit_iff (0, 0) (0, 0)).1 rfl,
   (mouse_motion_exit_iff (0, 0) (1, 0)).2 (by decide)⟩

/-- C5: each frame spawns at most one particle, and whenever a spawn fires
the new interval is `max(0.02, gauss_sample)`, hence at least `0.02`. -/
theorem spawn_at_most_one_and_interval_floor (dt g : ℚ) (p : FallingBlock)
    (st : SpawnState) :
    (spawnStep dt g p st).2.length ≤ 1 ∧
    (st.spawn_interval ≤ st.spawn_accum + dt →
       (spawnStep dt g p st).1.spawn_interval = max (2/100) g ∧
       (2/100 : ℚ) ≤ (spawnStep dt g p st).1.spawn_interval) := by
  unfold spawnStep
  by_cases h : st.spawn_interval ≤ st.spawn_accum + dt
  · rw [if_pos h]
    exact ⟨by simp, fun _ => ⟨rfl, le_max_left _ _⟩⟩
  · rw [if_neg h]
    exact ⟨by simp, fun hc => absurd hc h⟩

/-- Witness for C5: with the accumulator past the interval a spawn fires and
the refreshed interval is floored at `0.02`. -/
theorem spawn_at_most_one_and_interval_floor_witness :
    (spawnStep 1 0 (FallingBlock.mk 0 0 1 2 (0, 0, 0) 3 3)
        (SpawnState.mk 0 (1/2))).2.length ≤ 1 ∧
    (spawnStep 1 0 (FallingBlock.mk 0 0 1 2 (0, 0, 0) 3 3)
        (SpawnState.mk 0 (1/2))).1.spawn_interval = max (2/100) 0 ∧
    (2/100 : ℚ) ≤ (spawnStep 1 0 (FallingBlock.mk 0 0 1 2 (0, 0, 0) 3 3)
        (SpawnState.mk 0 (1/2))).1.spawn_interval := by
  have h := spawn_at_most_one_and_interval_floor 1 0
    (FallingBlock.mk 0 0 1 2 (0, 0, 0) 3 3) (SpawnState.mk 0 (1/2))
  exact ⟨h.1, h.2 (by norm_num)⟩

/-- C6: a particle whose fall speed is at least the lower end of
`BLOCK_FALL_RATE` never moves up: its `y` is nondecreasing under an update
with `dt ≥ 0`, and strictly increases when `dt > 0`. -/
theorem particle_falls_monotonically (b : FallingBlock) (dt : ℚ)
    (hv : BLOCK_FALL_RATE.1 ≤ b.vy) (hdt : 0 ≤ dt) :
    b.y ≤ (advanceParticle dt b).y ∧
    (0 < dt → b.y < (advanceParticle dt b).y) := by
  have hv150 : (150 : ℚ) ≤ b.vy := hv
  simp only [advanceParticle]
  constructor
  · nlinarith
  · intro h
    nlinarith

/-- Witness for C6 at a concrete particle and step. -/
theorem particle_falls_monotonically_witness :
    (FallingBlock.mk 0 5 1 200 (0, 0, 0) 3 3).y
        ≤ (advanceParticle 1 (FallingBlock.mk 0 5 1 200 (0, 0, 0) 3 3)).y ∧
    (FallingBlock.mk 0 5 1 200 (0, 0, 0) 3 3).y
        < (advanceParticle 1 (FallingBlock.mk 0 5 1 200 (0, 0, 0) 3 3)).y := by
  have h := particle_falls_monotonically (FallingBlock.mk 0 5 1 200 (0, 0, 0) 3 3)
    1 (by norm_num [BLOCK_FALL_RATE]) (by norm_num)
  exact ⟨h.1, h.2 (by norm_num)⟩

/-- C7: the bob offset is periodic with period `1 / BOB_SPEED`. -/
theorem bob_periodic (t : ℝ) : bob (t + 1 / BOB_SPEED) = bob t := by
  unfold bob
  have hs : BOB_SPEED ≠ 0 := by unfold BOB_SPEED; norm_num
  have h : 2 * Real.pi * BOB_SPEED * (t + 1 / BOB_SPEED)
      = 2 * Real.pi * BOB_SPEED * t + 2 * Real.pi := by
    field_simp
    ring
  rw [h, Real.sin_add_two_pi]

/-- C8: no event handling ever turns the flag back on (the poll yields
RUNNING only if the frame started RUNNING), and once the flag is cleared the
main loop performs no further iteration, for any remaining input. -/
theorem exit_is_terminal (start : ℤ × ℤ) (r : Bool) (evs : List Event)
    (frames : List (List Event)) :
    (processEvents start r evs = true → r = true) ∧
    mainLoop start frames false = false := by
  constructor
  · intro h
    cases r with
    | true => rfl
    | false => rw [processEvents_false] at h; exact h
  · cases frames with
    | nil => rfl
    | cons f rest => rw [mainLoop, if_neg (by simp)]

/-- Witness for C8: a frame that ends RUNNING started RUNNING, and the loop
in the EXITING state ignores any further frames. -/
theorem exit_is_terminal_witness :
    true = true ∧ mainLoop (0, 0) [[Event.quit]] false = false :=
  ⟨(exit_is_terminal (0, 0) true [Event.other] []).1 (by decide),
   (exit_is_terminal (0, 0) true [Event.other] [[Event.quit]]).2⟩

/-- C9: whatever the loop body does to the cursor state and whether it ends
normally or by a fault, after the `finally` block the cursor is visible and
the input grab released. -/
theorem cleanup_restores_cursor (body : SysState → LoopOutcome × SysState)
    (s : SysState) :
    (mainCursorStates body s).2.cursorVisible = true ∧
    (mainCursorStates body s).2.inputGrabbed = false := by
  unfold mainCursorStates runWithCleanup restoreCursor
  exact ⟨rfl, rfl⟩

/-- C10: a spawned particle has `life = max_life` with `max_life ≥ 2.5`;
updates keep `max_life` and never raise `life`; hence for any particle
satisfying the resulting invariant and the active-list test `life > 0`,
the divisor `max_life` is nonzero and the lifetime fraction is in `(0, 1]`. -/
theorem lifetime_fraction_safe :
    (∀ (x y vy : ℚ) (size : ℤ) (color : ℕ × ℕ × ℕ) (r : ℚ), 0 ≤ r →
       (spawnParticle x y vy size color r).life
         = (spawnParticle x y vy size color r).max_life ∧
       (5/2 : ℚ) ≤ (spawnParticle x y vy size color r).max_life) ∧
    (∀ (dt : ℚ) (b : FallingBlock), 0 ≤ dt →
       (advanceParticle dt b).max_life = b.max_life ∧
       (advanceParticle dt b).life ≤ b.life) ∧
    (∀ b : FallingBlock, (5/2 : ℚ) ≤ b.max_life → b.life ≤ b.max_life →
       0 < b.life →
       b.max_life ≠ 0 ∧ 0 < b.life / b.max_life ∧ b.life / b.max_life ≤ 1) := by
  refine ⟨fun x y vy size color r hr => ⟨rfl, ?_⟩,
    fun dt b hdt => ⟨rfl, ?_⟩, fun b hmax hle hpos => ?_⟩
  · simp only [spawnParticle]
    nlinarith
  · simp only [advanceParticle]
    linarith
  · have hmp : (0 : ℚ) < b.max_life := by linarith
    exact ⟨ne_of_gt hmp, div_pos hpos hmp, (div_le_one hmp).mpr hle⟩

/-- Witness for C10 at a concrete spawn, step and fraction. -/
theorem lifetime_fraction_safe_witness :
    ((spawnParticle 0 0 200 1 (0, 0, 0) (1/2)).life
        = (spawnParticle 0 0 200 1 (0, 0, 0) (1/2)).max_life ∧
      (5/2 : ℚ) ≤ (spawnParticle 0 0 200 1 (0, 0, 0) (1/2)).max_life) ∧
    ((advanceParticle 1 (FallingBlock.mk 0 0 1 2 (0, 0, 0) 3 3)).max_life
        = (FallingBlock.mk 0 0 1 2 (0, 0, 0) 3 3).max_life ∧
      (advanceParticle 1 (FallingBlock.mk 0 0 1 2 (0, 0, 0) 3 3)).life
        ≤ (FallingBlock.mk 0 0 1 2 (0, 0, 0) 3 3).life) ∧
    ((FallingBlock.mk 0 0 1 2 (0, 0, 0) 3 3).max_life ≠ 0 ∧
      0 < (FallingBlock.mk 0 0 1 2 (0, 0, 0) 3 3).life
          / (FallingBlock.mk 0 0 1 2 (0, 0, 0) 3 3).max_life ∧
      (FallingBlock.mk 0 0 1 2 (0, 0, 0) 3 3).life
          / (FallingBlock.mk 0 0 1 2 (0, 0, 0) 3 3).max_life ≤ 1) :=
  ⟨lifetime_fraction_safe.1 0 0 200 1 (0, 0, 0) (1/2) (by norm_num),
   lifetime_fraction_safe.2.1 1 (FallingBlock.mk 0 0 1 2 (0, 0, 0) 3 3)
     (by norm_num),
   lifetime_fraction_safe.2.2 (FallingBlock.mk 0 0 1 2 (0, 0, 0) 3 3)
     (by norm_num) (by norm_num) (by norm_num)⟩

end Screensaver
